import Mathlib

/-!
Shallow embedding of `simulation.py`: a discrete-time simulation of a nomadic
user whose session migrates between a Laptop and a Phone, compared across three
agent policies (Reactive, Myopic, PASS/predictive).

Python floats are modelled as exact rationals (every quantity the program
manipulates is produced by `+`, `-`, `*`, `/` on the small decimal constants
below).  The module-level configuration constants (source lines 11-22, plus the
two scripted event steps hard-coded at lines 155-156) are gathered into a
`Config` record whose defaults are exactly the source's values; the spec's
configuration surface (§6) lists precisely these as the overridable parameters.
-/

set_option maxRecDepth 40000

namespace Pass

/-- Configuration constants (source lines 11-22) together with the two scripted
event step indices hard-coded in `Simulation.run` (`t == 30`, `t == 60`).
Default values are the source's module-level constants, floats read as exact
rationals. -/
structure Config where
  simulation_steps : ℕ := 100
  session_state_size_mb : ℚ := 100
  network_bandwidth_wifi : ℚ := 50
  network_bandwidth_5g : ℚ := 25
  power_drain_idle : ℚ := 5/100
  power_drain_active_high_qos : ℚ := 20/100
  power_drain_active_std_qos : ℚ := 12/100
  power_drain_decision_cpu_burst : ℚ := 10/100
  power_drain_tx_wifi : ℚ := 30/100
  power_drain_tx_5g : ℚ := 60/100
  context_change_step : ℕ := 30
  user_switch_step : ℕ := 60
deriving DecidableEq

/-- The configuration with all constants at the source's values. -/
def defaultConfig : Config := {}

/-- `Device` (source lines 24-29): name plus activation/preparedness flags. -/
structure Device where
  name : String
  is_active : Bool
  is_prepared : Bool
deriving DecidableEq

/-- `User` (source lines 31-37).  `User.__init__` builds the devices dict with
exactly the two keys `"Laptop"` and `"Phone"`; the dict is rendered by its two
entries, with `getDevice`/`setDevice` playing the role of keyed access. -/
structure User where
  laptop : Device
  phone : Device
  context : String
  active_device_name : String
deriving DecidableEq

/-- Keyed read of the `User.devices` dict; `none` models a `KeyError`. -/
def User.getDevice (u : User) (n : String) : Option Device :=
  if n = "Laptop" then some u.laptop
  else if n = "Phone" then some u.phone
  else none

/-- Keyed in-place update of a device held in the `User.devices` dict. -/
def User.setDevice (u : User) (n : String) (d : Device) : User :=
  if n = "Laptop" then { u with laptop := d }
  else if n = "Phone" then { u with phone := d }
  else u

/-- The state `User.__init__` (lines 33-37) produces: both devices exist, the
Laptop is active, context is "At Office". -/
def User.init : User :=
  { laptop := { name := "Laptop", is_active := true, is_prepared := false }
    phone := { name := "Phone", is_active := false, is_prepared := false }
    context := "At Office"
    active_device_name := "Laptop" }

/-- `User.switch_active_device` (source lines 39-43).  The Python mutates the
object field by field and a `KeyError` aborts mid-sequence; `.error s` carries
the state of the object at the moment the `KeyError` is raised, `.ok s` the
state after a completed switch.  Line 41 indexes `devices[active_device_name]`,
line 42 reassigns `active_device_name`, line 43 indexes `devices[new_name]`. -/
def User.switch_active_device (u : User) (new_device_name : String) : Except User User :=
  match u.getDevice u.active_device_name with
  | none => .error u
  | some old =>
    let u1 := u.setDevice u.active_device_name { old with is_active := false }
    let u2 := { u1 with active_device_name := new_device_name }
    match u2.getDevice new_device_name with
    | none => .error u2
    | some dev => .ok (u2.setDevice new_device_name { dev with is_active := true })

/-- The run loop (line 160) only ever switches to `"Phone"`, which always
exists, so the `KeyError` path is unreachable there; this total wrapper is the
form the loop uses. -/
def User.switchForRun (u : User) (n : String) : User :=
  match u.switch_active_device n with
  | .ok u' => u'
  | .error u' => u'

/-- The migration-job dict (source lines 138 and 146).  `device` holds the
target device's name: in the source it is a reference to
`user.devices["Phone"]` that is never read again after creation (PREPARE
completion assigns through `user.devices["Phone"]` directly, line 123). -/
structure MigrationJob where
  type : String
  device : String
  remaining_mb : ℚ
  steps_taken : ℕ
  bandwidth : ℚ
  network_type : String
deriving DecidableEq

/-- Agent decisions.  The source passes dicts of exactly four shapes — `{}`,
`{"action": "PREPARE_MIGRATION"}`, `{"action": "EXECUTE_MIGRATION"}`,
`{"action": "ADJUST_QOS", "new_level": l}` — read back via
`decision.get("action", "NO_OP")`; this closed variant enumerates them. -/
inductive Decision where
  | noOp
  | prepareMigration
  | executeMigration
  | adjustQoS (new_level : String)
deriving DecidableEq

/-- The metrics accumulator (source lines 93-96).  `handover_latency_steps` and
`total_migration_time` only ever hold non-negative integers. -/
structure Metrics where
  handover_latency_steps : ℕ
  total_power_consumed : ℚ
  proactive_data_mb : ℚ
  total_migration_time : ℕ
deriving DecidableEq

/-- The mutable state of a `Simulation` object (source lines 85-96). -/
structure SimState where
  user : User
  network_type : String
  network_bandwidth : ℚ
  quality_level : String
  migration_in_progress : Option MigrationJob
  metrics : Metrics
deriving DecidableEq

/-- `Simulation.__init__` (lines 85-96): fresh user, Wi-Fi network at the
configured bandwidth, High quality, no job, zeroed metrics. -/
def initState (cfg : Config) : SimState :=
  { user := User.init
    network_type := "Wi-Fi"
    network_bandwidth := cfg.network_bandwidth_wifi
    quality_level := "High"
    migration_in_progress := none
    metrics := { handover_latency_steps := 0, total_power_consumed := 0,
                 proactive_data_mb := 0, total_migration_time := 0 } }

/-- The User-Digital-Twin snapshot `Simulation._get_udt` builds (lines 98-105);
the `devices` dict is rendered by its two entries. -/
structure Udt where
  user_context : String
  active_device : String
  devices_laptop : Device
  devices_phone : Device
  network_bandwidth : ℚ
  network_type : String
  quality_level : String
  is_user_switching_now : Bool

/-- `Simulation._get_udt` (lines 98-105). -/
def SimState.get_udt (s : SimState) (is_switching : Bool) : Udt :=
  { user_context := s.user.context
    active_device := s.user.active_device_name
    devices_laptop := s.user.laptop
    devices_phone := s.user.phone
    network_bandwidth := s.network_bandwidth
    network_type := s.network_type
    quality_level := s.quality_level
    is_user_switching_now := is_switching }

/-- The three agent classes (lines 46-81). -/
inductive AgentKind where
  | reactive
  | myopic
  | pass
deriving DecidableEq

/-- `PASS_Agent._predict_intent` (lines 67-71). -/
def predict_intent (udt : Udt) : String :=
  if udt.user_context = "Walking" ∧ udt.active_device = "Laptop" then "SWITCH_TO_PHONE"
  else "STAY"

/-- The `decide` method of each agent class (lines 48-51, 55-60, 73-81).  The
PASS agent reads `sim_instance.migration_in_progress` through its
back-reference to the engine; here that is the explicit `mig` argument, which
the two baseline agents ignore. -/
def agentDecide : AgentKind → Udt → Option MigrationJob → Decision
  | .reactive, udt, _ =>
    if udt.is_user_switching_now then .executeMigration else .noOp
  | .myopic, udt, _ =>
    if udt.network_type = "5G" ∧ udt.quality_level = "High" then .adjustQoS "Standard"
    else if udt.is_user_switching_now then .executeMigration
    else .noOp
  | .pass, udt, mig =>
    let prediction := predict_intent udt
    let is_preparing : Bool := match mig with
      | some j => j.type = "PREPARE"
      | none => false
    if prediction = "SWITCH_TO_PHONE" ∧ udt.devices_phone.is_prepared = false ∧
        is_preparing = false then
      .prepareMigration
    else if udt.is_user_switching_now then .executeMigration
    else .noOp

/-- `Simulation._execute_action` (lines 107-150).  When a job is live the
decision is never consulted: the job advances by `bandwidth / 8.0` MB using the
job's own frozen bandwidth, transmit power is charged from the job's frozen
network type, and on completion the PREPARE/EXECUTE side effects fire.  With no
job live, the decision is dispatched: PREPARE and slow-path EXECUTE snapshot
the current ambient bandwidth and network type into a fresh job with
`steps_taken = 1`; fast-path EXECUTE (target already prepared) sets the latency
to 1 without creating a job; ADJUST_QOS sets the quality level and charges the
CPU-burst cost.  `current_time` is only used by the source for printing and is
omitted. -/
def execute_action (cfg : Config) (s : SimState) (decision : Decision) : SimState :=
  match s.migration_in_progress with
  | some job =>
    let ms0 := { s.metrics with total_migration_time := s.metrics.total_migration_time + 1 }
    let tx_power_drain :=
      if job.network_type = "Wi-Fi" then cfg.power_drain_tx_wifi else cfg.power_drain_tx_5g
    let ms := { ms0 with total_power_consumed := ms0.total_power_consumed + tx_power_drain }
    let remaining := job.remaining_mb - job.bandwidth / 8
    if remaining ≤ 0 then
      if job.type = "PREPARE" then
        { s with
            user := s.user.setDevice "Phone" { s.user.phone with is_prepared := true }
            migration_in_progress := none
            metrics := { ms with proactive_data_mb := cfg.session_state_size_mb } }
      else
        { s with
            migration_in_progress := none
            metrics := { ms with handover_latency_steps := job.steps_taken } }
    else
      { s with
          migration_in_progress :=
            some { job with remaining_mb := remaining, steps_taken := job.steps_taken + 1 }
          metrics := ms }
  | none =>
    match decision with
    | .prepareMigration =>
      { s with
          migration_in_progress := some
            { type := "PREPARE", device := "Phone",
              remaining_mb := cfg.session_state_size_mb, steps_taken := 1,
              bandwidth := s.network_bandwidth, network_type := s.network_type }
          metrics := { s.metrics with
            total_migration_time := s.metrics.total_migration_time + 1 } }
    | .executeMigration =>
      let ms := { s.metrics with total_migration_time := s.metrics.total_migration_time + 1 }
      if s.user.phone.is_prepared then
        { s with metrics := { ms with handover_latency_steps := 1 } }
      else
        { s with
            migration_in_progress := some
              { type := "EXECUTE", device := "Phone",
                remaining_mb := cfg.session_state_size_mb, steps_taken := 1,
                bandwidth := s.network_bandwidth, network_type := s.network_type }
            metrics := ms }
    | .adjustQoS new_level =>
      { s with
          quality_level := new_level
          metrics := { s.metrics with
            total_power_consumed :=
              s.metrics.total_power_consumed + cfg.power_drain_decision_cpu_burst } }
    | .noOp => s

/-- Scripted environment event at the context-change step (source lines
156-158): context becomes "Walking", network becomes 5G at the 5G bandwidth. -/
def applyContextEvent (cfg : Config) (t : ℕ) (s : SimState) : SimState :=
  if t = cfg.context_change_step then
    { s with
        user := { s.user with context := "Walking" }
        network_type := "5G"
        network_bandwidth := cfg.network_bandwidth_5g }
  else s

/-- Scripted user action at the switch step (source lines 159-160). -/
def applySwitchEvent (cfg : Config) (t : ℕ) (s : SimState) : SimState :=
  if t = cfg.user_switch_step then { s with user := s.user.switchForRun "Phone" } else s

/-- Per-step device power accrual (source lines 164-167): the active device
draws the quality-dependent active rate, inactive devices the idle rate; the
sum is added to `total_power_consumed`.  The quality level is read after the
decision was executed, so a same-step QoS adjustment already applies. -/
def accruePower (cfg : Config) (s : SimState) : SimState :=
  let perDevice := fun (d : Device) =>
    if d.is_active then
      (if s.quality_level = "High" then cfg.power_drain_active_high_qos
       else cfg.power_drain_active_std_qos)
    else cfg.power_drain_idle
  { s with metrics := { s.metrics with
      total_power_consumed :=
        s.metrics.total_power_consumed + (perDevice s.user.laptop + perDevice s.user.phone) } }

/-- One iteration of the `Simulation.run` loop body (lines 154-167) at step
`t`: scripted events, snapshot, agent decision, decision execution, power
accrual.  The switch event is applied before the snapshot is built, so the
agent sees the post-switch world on the switch step. -/
def stepBody (cfg : Config) (a : AgentKind) (t : ℕ) (s : SimState) : SimState :=
  let s1 := applyContextEvent cfg t s
  let s2 := applySwitchEvent cfg t s1
  let udt := s2.get_udt (t = cfg.user_switch_step)
  let decision := agentDecide a udt s2.migration_in_progress
  accruePower cfg (execute_action cfg s2 decision)

/-- The run loop: `loop cfg a t n s` executes steps `t, t+1, …, t+n-1`. -/
def loop (cfg : Config) (a : AgentKind) : ℕ → ℕ → SimState → SimState
  | _, 0, s => s
  | t, n + 1, s => loop cfg a (t + 1) n (stepBody cfg a t s)

/-- End-of-run fix-up (source lines 168-169): if an EXECUTE job is still live
when the loop ends, the final latency is forced to that job's `steps_taken`. -/
def finalizeMetrics (s : SimState) : Metrics :=
  match s.migration_in_progress with
  | some job =>
    if job.type = "EXECUTE" then
      { s.metrics with handover_latency_steps := job.steps_taken }
    else s.metrics
  | none => s.metrics

/-- `Simulation.run` (lines 152-170): the fixed-length loop from `t = 0`,
then the live-EXECUTE fix-up, returning the metrics. -/
def runSim (cfg : Config) (a : AgentKind) : Metrics :=
  finalizeMetrics (loop cfg a 0 cfg.simulation_steps (initState cfg))

/-- The post-run Kleinrock-power computation (source lines 291-295, repeated at
lines 191-196): `T` clamped to at least 1 for the division only,
`gamma = session_size / total_migration_time` when that time is positive else
0, `power = gamma / T`. -/
def computePower (cfg : Config) (m : Metrics) : ℚ :=
  let T : ℕ := m.handover_latency_steps
  let T_for_calc : ℕ := max T 1
  let total_time : ℕ := m.total_migration_time
  let gamma : ℚ :=
    if 0 < total_time then cfg.session_state_size_mb / (total_time : ℚ) else 0
  gamma / (T_for_calc : ℚ)

/-- `metrics['power'] = gamma / T_for_calc` (line 295) adds the derived field
next to the raw counters, which it leaves untouched. -/
def addPowerMetric (cfg : Config) (m : Metrics) : Metrics × ℚ :=
  (m, computePower cfg m)

/-- Number of per-step transfers of `bw / 8` MB needed to drive a remaining
amount of `size` MB to `≤ 0` (the slow-path job length). -/
def transfers_needed (size bw : ℚ) : ℕ := ⌈size / (bw / 8)⌉₊


/-- Witness configuration for C6: three steps, the user switch scripted at step
1 and no context change inside the horizon, so a slow-path EXECUTE job started
at step 1 is still live when the run ends. -/
def cfgShort : Config :=
  { simulation_steps := 3, context_change_step := 1000, user_switch_step := 1 }

/-- A configuration identical to the source's except that no context change is
scripted inside the horizon, so the bandwidth stays at the Wi-Fi rate of
50 MB/s throughout. -/
def cfgConstantWifi : Config := { context_change_step := 1000 }


/-! ### C1: the predictive agent's proactive fast path -/

/-- The scripted scenario with the post-context-change bandwidth as a
parameter (all other constants at the source's values); `cfgWith5G 25` is
`defaultConfig`. -/
def cfgWith5G (b : ℚ) : Config := { network_bandwidth_5g := b }

/-- Phase invariant: before the context change (PASS run).  Fresh user, no
job, zero latency and proactive counters. -/
def StartP (s : SimState) : Prop :=
  s.user.laptop = { name := "Laptop", is_active := true, is_prepared := false } ∧
  s.user.phone = { name := "Phone", is_active := false, is_prepared := false } ∧
  s.user.context = "At Office" ∧ s.user.active_device_name = "Laptop" ∧
  s.quality_level = "High" ∧
  s.migration_in_progress = none ∧
  s.metrics.handover_latency_steps = 0 ∧ s.metrics.proactive_data_mb = 0

/-- Phase invariant: the PREPARE job created at the context-change step is
live and has undergone `k` per-step transfers of `b / 8` MB. -/
def PrepP (b : ℚ) (k : ℕ) (s : SimState) : Prop :=
  s.user.laptop = { name := "Laptop", is_active := true, is_prepared := false } ∧
  s.user.phone = { name := "Phone", is_active := false, is_prepared := false } ∧
  s.user.context = "Walking" ∧ s.user.active_device_name = "Laptop" ∧
  s.quality_level = "High" ∧
  s.migration_in_progress = some
    { type := "PREPARE", device := "Phone", remaining_mb := 100 - (k : ℚ) * (b / 8),
      steps_taken := k + 1, bandwidth := b, network_type := "5G" } ∧
  s.metrics.handover_latency_steps = 0 ∧ s.metrics.proactive_data_mb = 0 ∧
  0 < 100 - (k : ℚ) * (b / 8)

/-- Phase invariant: the PREPARE job has completed before the switch step. -/
def ReadyP (s : SimState) : Prop :=
  s.user.laptop = { name := "Laptop", is_active := true, is_prepared := false } ∧
  s.user.phone = { name := "Phone", is_active := false, is_prepared := true } ∧
  s.user.context = "Walking" ∧ s.user.active_device_name = "Laptop" ∧
  s.quality_level = "High" ∧
  s.migration_in_progress = none ∧
  s.metrics.handover_latency_steps = 0 ∧ s.metrics.proactive_data_mb = 100

/-- Phase invariant: after the fast-path handover at the switch step. -/
def DoneP (s : SimState) : Prop :=
  s.user.context = "Walking" ∧ s.user.active_device_name = "Phone" ∧
  s.migration_in_progress = none ∧
  s.metrics.handover_latency_steps = 1 ∧ s.metrics.proactive_data_mb = 100


/-- The state of the reactiveRun run entering step 20. -/
def reactiveRunState20 : SimState :=
  ⟨⟨⟨"Laptop", true, false⟩, ⟨"Phone", false, false⟩, "At Office", "Laptop"⟩,
  "Wi-Fi", 50, "High", none, ⟨0, 5, 0, 0⟩⟩

/-- The state of the reactiveRun run entering step 40. -/
def reactiveRunState40 : SimState :=
  ⟨⟨⟨"Laptop", true, false⟩, ⟨"Phone", false, false⟩, "Walking", "Laptop"⟩,
  "5G", 25, "High", none, ⟨0, 10, 0, 0⟩⟩

/-- The state of the reactiveRun run entering step 60. -/
def reactiveRunState60 : SimState :=
  ⟨⟨⟨"Laptop", true, false⟩, ⟨"Phone", false, false⟩, "Walking", "Laptop"⟩,
  "5G", 25, "High", none, ⟨0, 15, 0, 0⟩⟩

/-- The state of the reactiveRun run entering step 80. -/
def reactiveRunState80 : SimState :=
  ⟨⟨⟨"Laptop", false, false⟩, ⟨"Phone", true, false⟩, "Walking", "Phone"⟩,
  "5G", 25, "High", some ⟨"EXECUTE", "Phone", 325/8, 20, 25, "5G"⟩, ⟨0, 157/5, 0, 20⟩⟩

/-- The state of the reactiveRun run entering step 100. -/
def reactiveRunState100 : SimState :=
  ⟨⟨⟨"Laptop", false, false⟩, ⟨"Phone", true, false⟩, "Walking", "Phone"⟩,
  "5G", 25, "High", none, ⟨32, 221/5, 0, 33⟩⟩

/-- The state of the myopicRun run entering step 20. -/
def myopicRunState20 : SimState :=
  ⟨⟨⟨"Laptop", true, false⟩, ⟨"Phone", false, false⟩, "At Office", "Laptop"⟩,
  "Wi-Fi", 50, "High", none, ⟨0, 5, 0, 0⟩⟩

/-- The state of the myopicRun run entering step 40. -/
def myopicRunState40 : SimState :=
  ⟨⟨⟨"Laptop", true, false⟩, ⟨"Phone", false, false⟩, "Walking", "Laptop"⟩,
  "5G", 25, "Standard", none, ⟨0, 93/10, 0, 0⟩⟩

/-- The state of the myopicRun run entering step 60. -/
def myopicRunState60 : SimState :=
  ⟨⟨⟨"Laptop", true, false⟩, ⟨"Phone", false, false⟩, "Walking", "Laptop"⟩,
  "5G", 25, "Standard", none, ⟨0, 127/10, 0, 0⟩⟩

/-- The state of the myopicRun run entering step 80. -/
def myopicRunState80 : SimState :=
  ⟨⟨⟨"Laptop", false, false⟩, ⟨"Phone", true, false⟩, "Walking", "Phone"⟩,
  "5G", 25, "Standard", some ⟨"EXECUTE", "Phone", 325/8, 20, 25, "5G"⟩, ⟨0, 55/2, 0, 20⟩⟩

/-- The state of the myopicRun run entering step 100. -/
def myopicRunState100 : SimState :=
  ⟨⟨⟨"Laptop", false, false⟩, ⟨"Phone", true, false⟩, "Walking", "Phone"⟩,
  "5G", 25, "Standard", none, ⟨32, 387/10, 0, 33⟩⟩

/-- The state of the passWifiRun run entering step 20. -/
def passWifiRunState20 : SimState :=
  ⟨⟨⟨"Laptop", true, false⟩, ⟨"Phone", false, false⟩, "At Office", "Laptop"⟩,
  "Wi-Fi", 50, "High", none, ⟨0, 5, 0, 0⟩⟩

/-- The state of the passWifiRun run entering step 40. -/
def passWifiRunState40 : SimState :=
  ⟨⟨⟨"Laptop", true, false⟩, ⟨"Phone", false, false⟩, "At Office", "Laptop"⟩,
  "Wi-Fi", 50, "High", none, ⟨0, 10, 0, 0⟩⟩

/-- The state of the passWifiRun run entering step 60. -/
def passWifiRunState60 : SimState :=
  ⟨⟨⟨"Laptop", true, false⟩, ⟨"Phone", false, false⟩, "At Office", "Laptop"⟩,
  "Wi-Fi", 50, "High", none, ⟨0, 15, 0, 0⟩⟩

/-- The state of the passWifiRun run entering step 80. -/
def passWifiRunState80 : SimState :=
  ⟨⟨⟨"Laptop", false, false⟩, ⟨"Phone", true, false⟩, "At Office", "Phone"⟩,
  "Wi-Fi", 50, "High", none, ⟨16, 124/5, 0, 17⟩⟩

/-- The state of the passWifiRun run entering step 100. -/
def passWifiRunState100 : SimState :=
  ⟨⟨⟨"Laptop", false, false⟩, ⟨"Phone", true, false⟩, "At Office", "Phone"⟩,
  "Wi-Fi", 50, "High", none, ⟨16, 149/5, 0, 17⟩⟩

/-- The state of the passRun run entering step 20. -/
def passRunState20 : SimState :=
  ⟨⟨⟨"Laptop", true, false⟩, ⟨"Phone", false, false⟩, "At Office", "Laptop"⟩,
  "Wi-Fi", 50, "High", none, ⟨0, 5, 0, 0⟩⟩

/-- The state of the passRun run entering step 40. -/
def passRunState40 : SimState :=
  ⟨⟨⟨"Laptop", true, false⟩, ⟨"Phone", false, false⟩, "Walking", "Laptop"⟩,
  "5G", 25, "High", some ⟨"PREPARE", "Phone", 575/8, 10, 25, "5G"⟩, ⟨0, 77/5, 0, 10⟩⟩

/-- The state of the passRun run entering step 60. -/
def passRunState60 : SimState :=
  ⟨⟨⟨"Laptop", true, false⟩, ⟨"Phone", false, false⟩, "Walking", "Laptop"⟩,
  "5G", 25, "High", some ⟨"PREPARE", "Phone", 75/8, 30, 25, "5G"⟩, ⟨0, 162/5, 0, 30⟩⟩

/-- The state of the passRun run entering step 80. -/
def passRunState80 : SimState :=
  ⟨⟨⟨"Laptop", false, false⟩, ⟨"Phone", true, true⟩, "Walking", "Phone"⟩,
  "5G", 25, "High", none, ⟨0, 196/5, 100, 33⟩⟩

/-- The state of the passRun run entering step 100. -/
def passRunState100 : SimState :=
  ⟨⟨⟨"Laptop", false, false⟩, ⟨"Phone", true, true⟩, "Walking", "Phone"⟩,
  "5G", 25, "High", none, ⟨0, 221/5, 100, 33⟩⟩

end Pass

namespace Pass

/-! ### Helper lemmas shared by the developments below -/

theorem switchForRun_phone (u : User) (h : u.active_device_name = "Laptop") :
    u.switchForRun "Phone" =
      { laptop := { u.laptop with is_active := false }
        phone := { u.phone with is_active := true }
        context := u.context
        active_device_name := "Phone" } := by
  simp [User.switchForRun, User.switch_active_device, User.getDevice, User.setDevice, h]

theorem setDevice_phone (u : User) (d : Device) :
    u.setDevice "Phone" d = { u with phone := d } := by
  simp [User.setDevice]

theorem str_execute_ne_prepare : ("EXECUTE" : String) ≠ "PREPARE" := by decide

theorem str_5g_ne_wifi : ("5G" : String) ≠ "Wi-Fi" := by decide

theorem str_phone_ne_laptop : ("Phone" : String) ≠ "Laptop" := by decide

theorem str_office_ne_walking : ("At Office" : String) ≠ "Walking" := by decide

theorem str_stay_ne_switch : ("STAY" : String) ≠ "SWITCH_TO_PHONE" := by decide

theorem str_standard_ne_high : ("Standard" : String) ≠ "High" := by decide

theorem str_wifi_ne_5g : ("Wi-Fi" : String) ≠ "5G" := by decide

end Pass

namespace Pass

/-! ### Step-counted evaluation of the four concrete runs, in 20-step chunks -/

theorem loop_add (cfg : Config) (a : AgentKind) :
    ∀ (m n t : ℕ) (s : SimState),
      loop cfg a t (m + n) s = loop cfg a (t + m) n (loop cfg a t m s)
  | 0, n, t, s => by simp [loop]
  | m + 1, n, t, s => by
    have h1 : m + 1 + n = (m + n) + 1 := by omega
    rw [h1, loop, loop, loop_add cfg a m n (t + 1) (stepBody cfg a t s)]
    have h2 : t + 1 + m = t + (m + 1) := by omega
    rw [h2]

theorem reactiveRunChunk20 :
    loop defaultConfig .reactive 0 20 (initState defaultConfig) = reactiveRunState20 := by
  norm_num [loop, stepBody, applyContextEvent, applySwitchEvent, accruePower,
    execute_action, agentDecide, predict_intent, SimState.get_udt, initState, defaultConfig,
    User.init, switchForRun_phone, setDevice_phone,
    str_execute_ne_prepare, str_5g_ne_wifi, str_phone_ne_laptop, str_office_ne_walking,
    str_stay_ne_switch, str_standard_ne_high, str_wifi_ne_5g, reactiveRunState20]

theorem reactiveRunChunk40 :
    loop defaultConfig .reactive 20 20 reactiveRunState20 = reactiveRunState40 := by
  norm_num [loop, stepBody, applyContextEvent, applySwitchEvent, accruePower,
    execute_action, agentDecide, predict_intent, SimState.get_udt, initState, defaultConfig,
    User.init, switchForRun_phone, setDevice_phone,
    str_execute_ne_prepare, str_5g_ne_wifi, str_phone_ne_laptop, str_office_ne_walking,
    str_stay_ne_switch, str_standard_ne_high, str_wifi_ne_5g, reactiveRunState40, reactiveRunState20]

theorem reactiveRunChunk60 :
    loop defaultConfig .reactive 40 20 reactiveRunState40 = reactiveRunState60 := by
  norm_num [loop, stepBody, applyContextEvent, applySwitchEvent, accruePower,
    execute_action, agentDecide, predict_intent, SimState.get_udt, initState, defaultConfig,
    User.init, switchForRun_phone, setDevice_phone,
    str_execute_ne_prepare, str_5g_ne_wifi, str_phone_ne_laptop, str_office_ne_walking,
    str_stay_ne_switch, str_standard_ne_high, str_wifi_ne_5g, reactiveRunState60, reactiveRunState40]

theorem reactiveRunChunk80 :
    loop defaultConfig .reactive 60 20 reactiveRunState60 = reactiveRunState80 := by
  norm_num [loop, stepBody, applyContextEvent, applySwitchEvent, accruePower,
    execute_action, agentDecide, predict_intent, SimState.get_udt, initState, defaultConfig,
    User.init, switchForRun_phone, setDevice_phone,
    str_execute_ne_prepare, str_5g_ne_wifi, str_phone_ne_laptop, str_office_ne_walking,
    str_stay_ne_switch, str_standard_ne_high, str_wifi_ne_5g, reactiveRunState80, reactiveRunState60]

theorem reactiveRunChunk100 :
    loop defaultConfig .reactive 80 20 reactiveRunState80 = reactiveRunState100 := by
  norm_num [loop, stepBody, applyContextEvent, applySwitchEvent, accruePower,
    execute_action, agentDecide, predict_intent, SimState.get_udt, initState, defaultConfig,
    User.init, switchForRun_phone, setDevice_phone,
    str_execute_ne_prepare, str_5g_ne_wifi, str_phone_ne_laptop, str_office_ne_walking,
    str_stay_ne_switch, str_standard_ne_high, str_wifi_ne_5g, reactiveRunState100, reactiveRunState80]

theorem reactiveRunEval :
    loop defaultConfig .reactive 0 100 (initState defaultConfig) = reactiveRunState100 := by
  have h0 : loop defaultConfig .reactive 0 100 (initState defaultConfig) =
      loop defaultConfig .reactive 20 80 (loop defaultConfig .reactive 0 20 (initState defaultConfig)) :=
    loop_add defaultConfig .reactive 20 80 0 (initState defaultConfig)
  have h1 : loop defaultConfig .reactive 20 80 reactiveRunState20 =
      loop defaultConfig .reactive 40 60 (loop defaultConfig .reactive 20 20 reactiveRunState20) :=
    loop_add defaultConfig .reactive 20 60 20 reactiveRunState20
  have h2 : loop defaultConfig .reactive 40 60 reactiveRunState40 =
      loop defaultConfig .reactive 60 40 (loop defaultConfig .reactive 40 20 reactiveRunState40) :=
    loop_add defaultConfig .reactive 20 40 40 reactiveRunState40
  have h3 : loop defaultConfig .reactive 60 40 reactiveRunState60 =
      loop defaultConfig .reactive 80 20 (loop defaultConfig .reactive 60 20 reactiveRunState60) :=
    loop_add defaultConfig .reactive 20 20 60 reactiveRunState60
  rw [h0, reactiveRunChunk20, h1, reactiveRunChunk40, h2, reactiveRunChunk60, h3, reactiveRunChunk80, reactiveRunChunk100]

theorem myopicRunChunk20 :
    loop defaultConfig .myopic 0 20 (initState defaultConfig) = myopicRunState20 := by
  norm_num [loop, stepBody, applyContextEvent, applySwitchEvent, accruePower,
    execute_action, agentDecide, predict_intent, SimState.get_udt, initState, defaultConfig,
    User.init, switchForRun_phone, setDevice_phone,
    str_execute_ne_prepare, str_5g_ne_wifi, str_phone_ne_laptop, str_office_ne_walking,
    str_stay_ne_switch, str_standard_ne_high, str_wifi_ne_5g, myopicRunState20]

theorem myopicRunChunk40 :
    loop defaultConfig .myopic 20 20 myopicRunState20 = myopicRunState40 := by
  norm_num [loop, stepBody, applyContextEvent, applySwitchEvent, accruePower,
    execute_action, agentDecide, predict_intent, SimState.get_udt, initState, defaultConfig,
    User.init, switchForRun_phone, setDevice_phone,
    str_execute_ne_prepare, str_5g_ne_wifi, str_phone_ne_laptop, str_office_ne_walking,
    str_stay_ne_switch, str_standard_ne_high, str_wifi_ne_5g, myopicRunState40, myopicRunState20]

theorem myopicRunChunk60 :
    loop defaultConfig .myopic 40 20 myopicRunState40 = myopicRunState60 := by
  norm_num [loop, stepBody, applyContextEvent, applySwitchEvent, accruePower,
    execute_action, agentDecide, predict_intent, SimState.get_udt, initState, defaultConfig,
    User.init, switchForRun_phone, setDevice_phone,
    str_execute_ne_prepare, str_5g_ne_wifi, str_phone_ne_laptop, str_office_ne_walking,
    str_stay_ne_switch, str_standard_ne_high, str_wifi_ne_5g, myopicRunState60, myopicRunState40]

theorem myopicRunChunk80 :
    loop defaultConfig .myopic 60 20 myopicRunState60 = myopicRunState80 := by
  norm_num [loop, stepBody, applyContextEvent, applySwitchEvent, accruePower,
    execute_action, agentDecide, predict_intent, SimState.get_udt, initState, defaultConfig,
    User.init, switchForRun_phone, setDevice_phone,
    str_execute_ne_prepare, str_5g_ne_wifi, str_phone_ne_laptop, str_office_ne_walking,
    str_stay_ne_switch, str_standard_ne_high, str_wifi_ne_5g, myopicRunState80, myopicRunState60]

theorem myopicRunChunk100 :
    loop defaultConfig .myopic 80 20 myopicRunState80 = myopicRunState100 := by
  norm_num [loop, stepBody, applyContextEvent, applySwitchEvent, accruePower,
    execute_action, agentDecide, predict_intent, SimState.get_udt, initState, defaultConfig,
    User.init, switchForRun_phone, setDevice_phone,
    str_execute_ne_prepare, str_5g_ne_wifi, str_phone_ne_laptop, str_office_ne_walking,
    str_stay_ne_switch, str_standard_ne_high, str_wifi_ne_5g, myopicRunState100, myopicRunState80]

theorem myopicRunEval :
    loop defaultConfig .myopic 0 100 (initState defaultConfig) = myopicRunState100 := by
  have h0 : loop defaultConfig .myopic 0 100 (initState defaultConfig) =
      loop defaultConfig .myopic 20 80 (loop defaultConfig .myopic 0 20 (initState defaultConfig)) :=
    loop_add defaultConfig .myopic 20 80 0 (initState defaultConfig)
  have h1 : loop defaultConfig .myopic 20 80 myopicRunState20 =
      loop defaultConfig .myopic 40 60 (loop defaultConfig .myopic 20 20 myopicRunState20) :=
    loop_add defaultConfig .myopic 20 60 20 myopicRunState20
  have h2 : loop defaultConfig .myopic 40 60 myopicRunState40 =
      loop defaultConfig .myopic 60 40 (loop defaultConfig .myopic 40 20 myopicRunState40) :=
    loop_add defaultConfig .myopic 20 40 40 myopicRunState40
  have h3 : loop defaultConfig .myopic 60 40 myopicRunState60 =
      loop defaultConfig .myopic 80 20 (loop defaultConfig .myopic 60 20 myopicRunState60) :=
    loop_add defaultConfig .myopic 20 20 60 myopicRunState60
  rw [h0, myopicRunChunk20, h1, myopicRunChunk40, h2, myopicRunChunk60, h3, myopicRunChunk80, myopicRunChunk100]

theorem passWifiRunChunk20 :
    loop cfgConstantWifi .pass 0 20 (initState cfgConstantWifi) = passWifiRunState20 := by
  norm_num [loop, stepBody, applyContextEvent, applySwitchEvent, accruePower,
    execute_action, agentDecide, predict_intent, SimState.get_udt, initState, cfgConstantWifi,
    User.init, switchForRun_phone, setDevice_phone,
    str_execute_ne_prepare, str_5g_ne_wifi, str_phone_ne_laptop, str_office_ne_walking,
    str_stay_ne_switch, str_standard_ne_high, str_wifi_ne_5g, passWifiRunState20]

theorem passWifiRunChunk40 :
    loop cfgConstantWifi .pass 20 20 passWifiRunState20 = passWifiRunState40 := by
  norm_num [loop, stepBody, applyContextEvent, applySwitchEvent, accruePower,
    execute_action, agentDecide, predict_intent, SimState.get_udt, initState, cfgConstantWifi,
    User.init, switchForRun_phone, setDevice_phone,
    str_execute_ne_prepare, str_5g_ne_wifi, str_phone_ne_laptop, str_office_ne_walking,
    str_stay_ne_switch, str_standard_ne_high, str_wifi_ne_5g, passWifiRunState40, passWifiRunState20]

theorem passWifiRunChunk60 :
    loop cfgConstantWifi .pass 40 20 passWifiRunState40 = passWifiRunState60 := by
  norm_num [loop, stepBody, applyContextEvent, applySwitchEvent, accruePower,
    execute_action, agentDecide, predict_intent, SimState.get_udt, initState, cfgConstantWifi,
    User.init, switchForRun_phone, setDevice_phone,
    str_execute_ne_prepare, str_5g_ne_wifi, str_phone_ne_laptop, str_office_ne_walking,
    str_stay_ne_switch, str_standard_ne_high, str_wifi_ne_5g, passWifiRunState60, passWifiRunState40]

theorem passWifiRunChunk80 :
    loop cfgConstantWifi .pass 60 20 passWifiRunState60 = passWifiRunState80 := by
  norm_num [loop, stepBody, applyContextEvent, applySwitchEvent, accruePower,
    execute_action, agentDecide, predict_intent, SimState.get_udt, initState, cfgConstantWifi,
    User.init, switchForRun_phone, setDevice_phone,
    str_execute_ne_prepare, str_5g_ne_wifi, str_phone_ne_laptop, str_office_ne_walking,
    str_stay_ne_switch, str_standard_ne_high, str_wifi_ne_5g, passWifiRunState80, passWifiRunState60]

theorem passWifiRunChunk100 :
    loop cfgConstantWifi .pass 80 20 passWifiRunState80 = passWifiRunState100 := by
  norm_num [loop, stepBody, applyContextEvent, applySwitchEvent, accruePower,
    execute_action, agentDecide, predict_intent, SimState.get_udt, initState, cfgConstantWifi,
    User.init, switchForRun_phone, setDevice_phone,
    str_execute_ne_prepare, str_5g_ne_wifi, str_phone_ne_laptop, str_office_ne_walking,
    str_stay_ne_switch, str_standard_ne_high, str_wifi_ne_5g, passWifiRunState100, passWifiRunState80]

theorem passWifiRunEval :
    loop cfgConstantWifi .pass 0 100 (initState cfgConstantWifi) = passWifiRunState100 := by
  have h0 : loop cfgConstantWifi .pass 0 100 (initState cfgConstantWifi) =
      loop cfgConstantWifi .pass 20 80 (loop cfgConstantWifi .pass 0 20 (initState cfgConstantWifi)) :=
    loop_add cfgConstantWifi .pass 20 80 0 (initState cfgConstantWifi)
  have h1 : loop cfgConstantWifi .pass 20 80 passWifiRunState20 =
      loop cfgConstantWifi .pass 40 60 (loop cfgConstantWifi .pass 20 20 passWifiRunState20) :=
    loop_add cfgConstantWifi .pass 20 60 20 passWifiRunState20
  have h2 : loop cfgConstantWifi .pass 40 60 passWifiRunState40 =
      loop cfgConstantWifi .pass 60 40 (loop cfgConstantWifi .pass 40 20 passWifiRunState40) :=
    loop_add cfgConstantWifi .pass 20 40 40 passWifiRunState40
  have h3 : loop cfgConstantWifi .pass 60 40 passWifiRunState60 =
      loop cfgConstantWifi .pass 80 20 (loop cfgConstantWifi .pass 60 20 passWifiRunState60) :=
    loop_add cfgConstantWifi .pass 20 20 60 passWifiRunState60
  rw [h0, passWifiRunChunk20, h1, passWifiRunChunk40, h2, passWifiRunChunk60, h3, passWifiRunChunk80, passWifiRunChunk100]

theorem passRunChunk20 :
    loop defaultConfig .pass 0 20 (initState defaultConfig) = passRunState20 := by
  norm_num [loop, stepBody, applyContextEvent, applySwitchEvent, accruePower,
    execute_action, agentDecide, predict_intent, SimState.get_udt, initState, defaultConfig,
    User.init, switchForRun_phone, setDevice_phone,
    str_execute_ne_prepare, str_5g_ne_wifi, str_phone_ne_laptop, str_office_ne_walking,
    str_stay_ne_switch, str_standard_ne_high, str_wifi_ne_5g, passRunState20]

theorem passRunChunk40 :
    loop defaultConfig .pass 20 20 passRunState20 = passRunState40 := by
  norm_num [loop, stepBody, applyContextEvent, applySwitchEvent, accruePower,
    execute_action, agentDecide, predict_intent, SimState.get_udt, initState, defaultConfig,
    User.init, switchForRun_phone, setDevice_phone,
    str_execute_ne_prepare, str_5g_ne_wifi, str_phone_ne_laptop, str_office_ne_walking,
    str_stay_ne_switch, str_standard_ne_high, str_wifi_ne_5g, passRunState40, passRunState20]

theorem passRunChunk60 :
    loop defaultConfig .pass 40 20 passRunState40 = passRunState60 := by
  norm_num [loop, stepBody, applyContextEvent, applySwitchEvent, accruePower,
    execute_action, agentDecide, predict_intent, SimState.get_udt, initState, defaultConfig,
    User.init, switchForRun_phone, setDevice_phone,
    str_execute_ne_prepare, str_5g_ne_wifi, str_phone_ne_laptop, str_office_ne_walking,
    str_stay_ne_switch, str_standard_ne_high, str_wifi_ne_5g, passRunState60, passRunState40]

theorem passRunChunk80 :
    loop defaultConfig .pass 60 20 passRunState60 = passRunState80 := by
  norm_num [loop, stepBody, applyContextEvent, applySwitchEvent, accruePower,
    execute_action, agentDecide, predict_intent, SimState.get_udt, initState, defaultConfig,
    User.init, switchForRun_phone, setDevice_phone,
    str_execute_ne_prepare, str_5g_ne_wifi, str_phone_ne_laptop, str_office_ne_walking,
    str_stay_ne_switch, str_standard_ne_high, str_wifi_ne_5g, passRunState80, passRunState60]

theorem passRunChunk100 :
    loop defaultConfig .pass 80 20 passRunState80 = passRunState100 := by
  norm_num [loop, stepBody, applyContextEvent, applySwitchEvent, accruePower,
    execute_action, agentDecide, predict_intent, SimState.get_udt, initState, defaultConfig,
    User.init, switchForRun_phone, setDevice_phone,
    str_execute_ne_prepare, str_5g_ne_wifi, str_phone_ne_laptop, str_office_ne_walking,
    str_stay_ne_switch, str_standard_ne_high, str_wifi_ne_5g, passRunState100, passRunState80]

theorem passRunEval :
    loop defaultConfig .pass 0 100 (initState defaultConfig) = passRunState100 := by
  have h0 : loop defaultConfig .pass 0 100 (initState defaultConfig) =
      loop defaultConfig .pass 20 80 (loop defaultConfig .pass 0 20 (initState defaultConfig)) :=
    loop_add defaultConfig .pass 20 80 0 (initState defaultConfig)
  have h1 : loop defaultConfig .pass 20 80 passRunState20 =
      loop defaultConfig .pass 40 60 (loop defaultConfig .pass 20 20 passRunState20) :=
    loop_add defaultConfig .pass 20 60 20 passRunState20
  have h2 : loop defaultConfig .pass 40 60 passRunState40 =
      loop defaultConfig .pass 60 40 (loop defaultConfig .pass 40 20 passRunState40) :=
    loop_add defaultConfig .pass 20 40 40 passRunState40
  have h3 : loop defaultConfig .pass 60 40 passRunState60 =
      loop defaultConfig .pass 80 20 (loop defaultConfig .pass 60 20 passRunState60) :=
    loop_add defaultConfig .pass 20 20 60 passRunState60
  rw [h0, passRunChunk20, h1, passRunChunk40, h2, passRunChunk60, h3, passRunChunk80, passRunChunk100]

theorem passRunEval60 :
    loop defaultConfig .pass 0 60 (initState defaultConfig) = passRunState60 := by
  have h0 : loop defaultConfig .pass 0 60 (initState defaultConfig) =
      loop defaultConfig .pass 20 40
        (loop defaultConfig .pass 0 20 (initState defaultConfig)) :=
    loop_add defaultConfig .pass 20 40 0 (initState defaultConfig)
  have h1 : loop defaultConfig .pass 20 40 passRunState20 =
      loop defaultConfig .pass 40 20 (loop defaultConfig .pass 20 20 passRunState20) :=
    loop_add defaultConfig .pass 20 20 20 passRunState20
  rw [h0, passRunChunk20, h1, passRunChunk40, passRunChunk60]

end Pass

namespace Pass

/-! ### C3: the derived power statistic -/

/-- C3: the derived power statistic is a pure function of the accumulated
counters: `gamma` is `session_size / total_migration_time` when that time is
positive and 0 otherwise, `T` is `max(handover_latency_steps, 1)`, `power` is
`gamma / T`; the divisor `T` is never zero, the power is 0 whenever
`total_migration_time = 0`, and attaching the derived field leaves the raw
counters (in particular the unclamped latency) untouched. -/
theorem power_metric_pure_function (cfg : Config) (m : Metrics) :
    computePower cfg m =
      (if 0 < m.total_migration_time then
        cfg.session_state_size_mb / (m.total_migration_time : ℚ) else 0) /
        ((max m.handover_latency_steps 1 : ℕ) : ℚ) ∧
    ((max m.handover_latency_steps 1 : ℕ) : ℚ) ≠ 0 ∧
    (m.total_migration_time = 0 → computePower cfg m = 0) ∧
    (addPowerMetric cfg m).1 = m := by
  refine ⟨rfl, ?_, ?_, rfl⟩
  · have h1 : 1 ≤ max m.handover_latency_steps 1 := le_max_right _ _
    exact Nat.cast_ne_zero.mpr (by omega)
  · intro h
    simp [computePower, h]

/-- Witness for C3 at a concrete metrics record with zero migration time. -/
theorem power_metric_pure_function_witness :
    computePower defaultConfig
      { handover_latency_steps := 7, total_power_consumed := 3,
        proactive_data_mb := 0, total_migration_time := 0 } = 0 :=
  (power_metric_pure_function defaultConfig
    { handover_latency_steps := 7, total_power_consumed := 3,
      proactive_data_mb := 0, total_migration_time := 0 }).2.2.1 rfl

end Pass

namespace Pass

/-! ### C4: in-flight jobs use their frozen network conditions -/

/-- C4: while a migration job is live, one execution step is a frame over the
ambient network fields: changing the ambient bandwidth and network type changes
nothing in the step's effect (first conjunct), the transmit-power charge is
taken from the job's frozen network type (second conjunct), and whenever the
job stays live it has advanced by exactly its own frozen `bandwidth / 8`
(third conjunct). -/
theorem inflight_job_frozen_network (cfg : Config) (s : SimState) (j : MigrationJob)
    (d : Decision) (bw' : ℚ) (nt' : String)
    (h : s.migration_in_progress = some j) :
    execute_action cfg { s with network_bandwidth := bw', network_type := nt' } d =
      { execute_action cfg s d with network_bandwidth := bw', network_type := nt' } ∧
    (execute_action cfg s d).metrics.total_power_consumed =
      s.metrics.total_power_consumed +
        (if j.network_type = "Wi-Fi" then cfg.power_drain_tx_wifi
         else cfg.power_drain_tx_5g) ∧
    (∀ j', (execute_action cfg s d).migration_in_progress = some j' →
      j' = { j with remaining_mb := j.remaining_mb - j.bandwidth / 8,
                    steps_taken := j.steps_taken + 1 }) := by
  obtain ⟨u, nt, nb, ql, mig, ms⟩ := s
  simp only [SimState.migration_in_progress] at h
  subst h
  refine ⟨?_, ?_, ?_⟩
  · simp only [execute_action]
    split
    · split <;> rfl
    · rfl
  · simp only [execute_action]
    split
    · split <;> rfl
    · rfl
  · intro j' hj'
    simp only [execute_action] at hj'
    split at hj'
    · split at hj' <;> simp_all
    · simp_all

/-- Witness for C4 at a concrete live-job state. -/
theorem inflight_job_frozen_network_witness :
    (execute_action defaultConfig
        { user := User.init, network_type := "5G", network_bandwidth := 25,
          quality_level := "High",
          migration_in_progress := some
            { type := "PREPARE", device := "Phone", remaining_mb := 50, steps_taken := 4,
              bandwidth := 50, network_type := "Wi-Fi" },
          metrics := { handover_latency_steps := 0, total_power_consumed := 10,
                       proactive_data_mb := 0, total_migration_time := 5 } }
        .noOp).metrics.total_power_consumed = 10 + 30/100 :=
  ((inflight_job_frozen_network defaultConfig
      { user := User.init, network_type := "5G", network_bandwidth := 25,
        quality_level := "High",
        migration_in_progress := some
          { type := "PREPARE", device := "Phone", remaining_mb := 50, steps_taken := 4,
            bandwidth := 50, network_type := "Wi-Fi" },
        metrics := { handover_latency_steps := 0, total_power_consumed := 10,
                     proactive_data_mb := 0, total_migration_time := 5 } }
      { type := "PREPARE", device := "Phone", remaining_mb := 50, steps_taken := 4,
        bandwidth := 50, network_type := "Wi-Fi" }
      .noOp 25 "5G" rfl).2.1).trans (by norm_num [defaultConfig])

end Pass

namespace Pass

/-! ### C7: at most one live migration job -/

/-- C7: from a state with a live job, executing any agent decision never
creates a second or different job: the job either completes (state returns to
Idle) or is the same job advanced by one step; the job-start logic is only
reachable from the Idle (no-job) state. -/
theorem at_most_one_job (cfg : Config) (s : SimState) (d : Decision)
    (j : MigrationJob) (h : s.migration_in_progress = some j) :
    (execute_action cfg s d).migration_in_progress = none ∨
    (execute_action cfg s d).migration_in_progress =
      some { j with remaining_mb := j.remaining_mb - j.bandwidth / 8,
                    steps_taken := j.steps_taken + 1 } := by
  obtain ⟨u, nt, nb, ql, mig, ms⟩ := s
  simp only [SimState.migration_in_progress] at h
  subst h
  simp only [execute_action]
  split
  · split <;> simp
  · simp

/-- Witness for C7 at a concrete live-job state. -/
theorem at_most_one_job_witness :
    (execute_action defaultConfig
        { user := User.init, network_type := "Wi-Fi", network_bandwidth := 50,
          quality_level := "High",
          migration_in_progress := some
            { type := "EXECUTE", device := "Phone", remaining_mb := 100, steps_taken := 1,
              bandwidth := 50, network_type := "Wi-Fi" },
          metrics := { handover_latency_steps := 0, total_power_consumed := 0,
                       proactive_data_mb := 0, total_migration_time := 1 } }
        .executeMigration).migration_in_progress = none ∨
    (execute_action defaultConfig
        { user := User.init, network_type := "Wi-Fi", network_bandwidth := 50,
          quality_level := "High",
          migration_in_progress := some
            { type := "EXECUTE", device := "Phone", remaining_mb := 100, steps_taken := 1,
              bandwidth := 50, network_type := "Wi-Fi" },
          metrics := { handover_latency_steps := 0, total_power_consumed := 0,
                       proactive_data_mb := 0, total_migration_time := 1 } }
        .executeMigration).migration_in_progress =
      some { type := "EXECUTE", device := "Phone", remaining_mb := 100 - 50 / 8,
             steps_taken := 2, bandwidth := 50, network_type := "Wi-Fi" } :=
  at_most_one_job defaultConfig _ .executeMigration
    { type := "EXECUTE", device := "Phone", remaining_mb := 100, steps_taken := 1,
      bandwidth := 50, network_type := "Wi-Fi" } rfl

/-! ### C8: fast path when the target is already prepared -/

/-- C8: an EXECUTE_MIGRATION decision executed with no live job and the Phone
already prepared creates no job (the state machine stays Idle) and sets
`handover_latency_steps` to 1 in the same step. -/
theorem fast_path_no_job (cfg : Config) (s : SimState)
    (hm : s.migration_in_progress = none)
    (hp : s.user.phone.is_prepared = true) :
    (execute_action cfg s .executeMigration).migration_in_progress = none ∧
    (execute_action cfg s .executeMigration).metrics.handover_latency_steps = 1 := by
  obtain ⟨⟨lap, pho, ctx, adn⟩, nt, nb, ql, mig, ms⟩ := s
  simp only [SimState.migration_in_progress] at hm
  simp only [SimState.user, User.phone] at hp
  subst hm
  simp [execute_action, hp]

/-- Witness for C8 at a concrete prepared state. -/
theorem fast_path_no_job_witness :
    (execute_action defaultConfig
        { user := { laptop := { name := "Laptop", is_active := true, is_prepared := false },
                    phone := { name := "Phone", is_active := false, is_prepared := true },
                    context := "Walking", active_device_name := "Laptop" },
          network_type := "5G", network_bandwidth := 25, quality_level := "High",
          migration_in_progress := none,
          metrics := { handover_latency_steps := 0, total_power_consumed := 1,
                       proactive_data_mb := 100, total_migration_time := 16 } }
        .executeMigration).migration_in_progress = none ∧
    (execute_action defaultConfig
        { user := { laptop := { name := "Laptop", is_active := true, is_prepared := false },
                    phone := { name := "Phone", is_active := false, is_prepared := true },
                    context := "Walking", active_device_name := "Laptop" },
          network_type := "5G", network_bandwidth := 25, quality_level := "High",
          migration_in_progress := none,
          metrics := { handover_latency_steps := 0, total_power_consumed := 1,
                       proactive_data_mb := 100, total_migration_time := 16 } }
        .executeMigration).metrics.handover_latency_steps = 1 :=
  fast_path_no_job defaultConfig _ rfl rfl

end Pass

namespace Pass

/-! ### C6: end-of-run forcing of the latency for a live EXECUTE job -/

/-- C6: if the loop ends with a live EXECUTE job, the run's returned metrics
carry that job's `steps_taken` as the final `handover_latency_steps`; a live
PREPARE job at run end leaves the metrics (in particular the latency)
unchanged. -/
theorem run_end_live_execute (cfg : Config) (a : AgentKind) (j : MigrationJob)
    (h : (loop cfg a 0 cfg.simulation_steps (initState cfg)).migration_in_progress = some j) :
    (j.type = "EXECUTE" → (runSim cfg a).handover_latency_steps = j.steps_taken) ∧
    (j.type = "PREPARE" →
      runSim cfg a = (loop cfg a 0 cfg.simulation_steps (initState cfg)).metrics) := by
  unfold runSim finalizeMetrics
  rw [h]
  constructor
  · intro ht
    simp [ht]
  · intro ht
    simp [ht, show ("PREPARE" : String) ≠ "EXECUTE" by decide]

/-- Witness for C6: the short reactive run ends with a live EXECUTE job whose
`steps_taken` is 2, and the returned latency is forced to 2. -/
theorem run_end_live_execute_witness :
    (runSim cfgShort .reactive).handover_latency_steps = 2 :=
  (run_end_live_execute cfgShort .reactive
    { type := "EXECUTE", device := "Phone", remaining_mb := 375/4,
      steps_taken := 2, bandwidth := 50, network_type := "Wi-Fi" }
    (by norm_num [loop, stepBody, applyContextEvent, applySwitchEvent, accruePower,
      execute_action, agentDecide, predict_intent, SimState.get_udt, initState, cfgShort,
      User.init, switchForRun_phone, setDevice_phone,
      str_execute_ne_prepare, str_5g_ne_wifi, str_phone_ne_laptop, str_office_ne_walking,
      str_stay_ne_switch, str_standard_ne_high, str_wifi_ne_5g])).1 rfl

end Pass

namespace Pass

/-! ### C9: total power consumption strictly increases every step -/

/-- Executing a decision never decreases the accumulated power (it adds the
transmit drain, the CPU-burst drain, or nothing). -/
theorem execute_action_power_mono (cfg : Config) (hw : 0 ≤ cfg.power_drain_tx_wifi)
    (h5 : 0 ≤ cfg.power_drain_tx_5g) (hc : 0 ≤ cfg.power_drain_decision_cpu_burst)
    (s : SimState) (d : Decision) :
    s.metrics.total_power_consumed ≤
      (execute_action cfg s d).metrics.total_power_consumed := by
  obtain ⟨u, nt, nb, ql, mig, ms⟩ := s
  rcases mig with _ | j
  · rcases d with _ | _ | _ | lvl
    · simp [execute_action]
    · simp [execute_action]
    · simp only [execute_action]
      split_ifs <;> simp
    · simp [execute_action]
      linarith
  · simp only [execute_action]
    split_ifs <;> simp <;> linarith

/-- The per-step device accrual adds a strictly positive amount as soon as all
three per-device rates are positive, since each of the two devices draws one of
them. -/
theorem accruePower_strict (cfg : Config) (hi : 0 < cfg.power_drain_idle)
    (hh : 0 < cfg.power_drain_active_high_qos) (hs : 0 < cfg.power_drain_active_std_qos)
    (s : SimState) :
    s.metrics.total_power_consumed < (accruePower cfg s).metrics.total_power_consumed := by
  obtain ⟨u, nt, nb, ql, mig, ms⟩ := s
  simp only [accruePower]
  simp
  split_ifs <;> linarith

/-- The scripted events never touch the metrics. -/
theorem events_metrics (cfg : Config) (t : ℕ) (s : SimState) :
    (applySwitchEvent cfg t (applyContextEvent cfg t s)).metrics = s.metrics := by
  unfold applySwitchEvent applyContextEvent
  split <;> split <;> rfl

/-- C9: under the source's power constants, every simulation step strictly
increases `total_power_consumed`, whatever the agent and whatever the state:
the decision execution only adds power, and the per-device accrual adds a
positive draw for each of the two devices (active rate or idle rate). -/
theorem total_power_strict_mono (a : AgentKind) (t : ℕ) (s : SimState) :
    s.metrics.total_power_consumed <
      (stepBody defaultConfig a t s).metrics.total_power_consumed := by
  unfold stepBody
  set s2 := applySwitchEvent defaultConfig t (applyContextEvent defaultConfig t s) with hs2
  have h0 : s2.metrics = s.metrics := events_metrics defaultConfig t s
  have h1 := execute_action_power_mono defaultConfig (by norm_num [defaultConfig])
    (by norm_num [defaultConfig]) (by norm_num [defaultConfig]) s2
    (agentDecide a (s2.get_udt (decide (t = defaultConfig.user_switch_step)))
      s2.migration_in_progress)
  have h2 := accruePower_strict defaultConfig (by norm_num [defaultConfig])
    (by norm_num [defaultConfig]) (by norm_num [defaultConfig])
    (execute_action defaultConfig s2
      (agentDecide a (s2.get_udt (decide (t = defaultConfig.user_switch_step)))
        s2.migration_in_progress))
  calc s.metrics.total_power_consumed
      = s2.metrics.total_power_consumed := by rw [h0]
    _ ≤ _ := h1
    _ < _ := h2

end Pass

namespace Pass

/-! ### C5: switching to an unknown device -/

/-- C5 counterexample: switching the freshly initialised user to the unknown
name "Tablet" does raise (the call returns the `KeyError` outcome), but the
carried state is neither the original state nor a completed switch: the Laptop
has already been deactivated and `active_device_name` already points at
"Tablet", so an intermediate state is observable on the error path. -/
theorem switch_unknown_name_counterexample :
    User.switch_active_device User.init "Tablet" =
      .error { laptop := { name := "Laptop", is_active := false, is_prepared := false }
               phone := { name := "Phone", is_active := false, is_prepared := false }
               context := "At Office", active_device_name := "Tablet" } ∧
    ({ laptop := { name := "Laptop", is_active := false, is_prepared := false }
       phone := { name := "Phone", is_active := false, is_prepared := false }
       context := "At Office", active_device_name := "Tablet" } : User) ≠ User.init := by
  constructor
  · rfl
  · decide

/-- C5 amended: a switch to an unknown device name fails fast with a
`KeyError`, and on valid names all three updates (deactivate old, set the
name, activate new) take effect; but the switch is not atomic on the error
path: by the time the `KeyError` is raised the old device has already been
deactivated and `active_device_name` already holds the unknown name, so the
partially mutated state is observable. -/
theorem switch_device_error_path_behavior (u : User) (n : String) (d : Device)
    (hd : u.getDevice u.active_device_name = some d) :
    (u.getDevice n = none →
      u.switch_active_device n =
        .error { u.setDevice u.active_device_name { d with is_active := false } with
                 active_device_name := n }) ∧
    (∀ d', ({ u.setDevice u.active_device_name { d with is_active := false } with
              active_device_name := n } : User).getDevice n = some d' →
      u.switch_active_device n =
        .ok (User.setDevice
              { u.setDevice u.active_device_name { d with is_active := false } with
                active_device_name := n } n { d' with is_active := true })) := by
  constructor
  · intro hn
    have hn2 : ({ u.setDevice u.active_device_name { d with is_active := false } with
        active_device_name := n } : User).getDevice n = none := by
      unfold User.getDevice at hn ⊢
      split_ifs at hn ⊢
      all_goals simp_all
    unfold User.switch_active_device
    rw [hd]
    simp only [hn2]
  · intro d' hd'
    unfold User.switch_active_device
    rw [hd]
    simp only [hd']

/-- Witness for C5: at the initial user, switching to "Phone" succeeds with all
three updates applied, and switching to "Tablet" raises with the partially
mutated state. -/
theorem switch_device_error_path_witness :
    User.switch_active_device User.init "Phone" =
      .ok { laptop := { name := "Laptop", is_active := false, is_prepared := false }
            phone := { name := "Phone", is_active := true, is_prepared := false }
            context := "At Office", active_device_name := "Phone" } ∧
    User.switch_active_device User.init "Tablet" =
      .error { laptop := { name := "Laptop", is_active := false, is_prepared := false }
               phone := { name := "Phone", is_active := false, is_prepared := false }
               context := "At Office", active_device_name := "Tablet" } := by
  constructor
  · exact (switch_device_error_path_behavior User.init "Phone"
      { name := "Laptop", is_active := true, is_prepared := false } rfl).2
      { name := "Phone", is_active := false, is_prepared := false } rfl
  · exact (switch_device_error_path_behavior User.init "Tablet"
      { name := "Laptop", is_active := true, is_prepared := false } rfl).1 rfl

end Pass

namespace Pass

set_option maxHeartbeats 40000000 in
/-- C2: slow-path handovers.  In the scripted scenario the Reactive and Myopic
agents start a slow-path EXECUTE job at the switch step with no preceding
PREPARE, and their final latency equals the number of per-step transfers of
(ambient bandwidth at switch time)/8 = 25/8 MB needed to drive the remaining
amount from 100 MB to ≤ 0, namely 32; the PASS agent run without the context
change never prepares, starts the same slow-path job at Wi-Fi rate, and
finishes in `transfers_needed 100 50 = ceil(100/6.25) = 16` steps, the job
length when the bandwidth stays at the Wi-Fi rate throughout. -/
theorem slow_path_latency_transfers :
    (runSim defaultConfig .reactive).handover_latency_steps = transfers_needed 100 25 ∧
    (runSim defaultConfig .myopic).handover_latency_steps = transfers_needed 100 25 ∧
    (runSim cfgConstantWifi .pass).handover_latency_steps = transfers_needed 100 50 ∧
    transfers_needed 100 25 = 32 ∧
    transfers_needed 100 50 = 16 ∧
    ((100 : ℚ) - 32 * (25 / 8) ≤ 0 ∧ 0 < (100 : ℚ) - 31 * (25 / 8)) ∧
    ((100 : ℚ) - 16 * (50 / 8) ≤ 0 ∧ 0 < (100 : ℚ) - 15 * (50 / 8)) := by
  have h25 : transfers_needed 100 25 = 32 := by
    rw [transfers_needed, show (100 : ℚ) / (25 / 8) = (32 : ℕ) by norm_num]
    exact Nat.ceil_natCast 32
  have h50 : transfers_needed 100 50 = 16 := by
    rw [transfers_needed, show (100 : ℚ) / (50 / 8) = (16 : ℕ) by norm_num]
    exact Nat.ceil_natCast 16
  have hr : runSim defaultConfig .reactive =
      finalizeMetrics (loop defaultConfig .reactive 0 100 (initState defaultConfig)) := rfl
  have hm : runSim defaultConfig .myopic =
      finalizeMetrics (loop defaultConfig .myopic 0 100 (initState defaultConfig)) := rfl
  have hp : runSim cfgConstantWifi .pass =
      finalizeMetrics (loop cfgConstantWifi .pass 0 100 (initState cfgConstantWifi)) := rfl
  refine ⟨?_, ?_, ?_, h25, h50, by constructor <;> norm_num, by constructor <;> norm_num⟩
  · rw [h25, hr, reactiveRunEval]
    norm_num [finalizeMetrics, reactiveRunState100]
  · rw [h25, hm, myopicRunEval]
    norm_num [finalizeMetrics, myopicRunState100]
  · rw [h50, hp, passWifiRunEval]
    norm_num [finalizeMetrics, passWifiRunState100]
end Pass

namespace Pass

set_option maxHeartbeats 40000000 in
/-- C10: while a migration job is live, executing a decision is independent of
the decision (the agent's returned action is entirely ignored, so no EXECUTE
job can be started then).  In the scripted PASS run this bites at the switch
step: entering step 60 the PREPARE job is still live (9.375 MB left, 30 steps
taken), the agent does return EXECUTE_MIGRATION, and the run ends with
`proactive_data_mb = 100` (the PREPARE later completed) but
`handover_latency_steps = 0` — the latency was never set for that handover. -/
theorem live_job_ignores_decision :
    (∀ (cfg : Config) (s : SimState) (j : MigrationJob) (d : Decision),
      s.migration_in_progress = some j →
      execute_action cfg s d = execute_action cfg s .noOp) ∧
    (loop defaultConfig .pass 0 60 (initState defaultConfig)).migration_in_progress =
      some { type := "PREPARE", device := "Phone", remaining_mb := 75/8, steps_taken := 30,
             bandwidth := 25, network_type := "5G" } ∧
    agentDecide .pass
      ((applySwitchEvent defaultConfig 60 (applyContextEvent defaultConfig 60
        (loop defaultConfig .pass 0 60 (initState defaultConfig)))).get_udt true)
      (applySwitchEvent defaultConfig 60 (applyContextEvent defaultConfig 60
        (loop defaultConfig .pass 0 60 (initState defaultConfig)))).migration_in_progress =
      .executeMigration ∧
    (runSim defaultConfig .pass).handover_latency_steps = 0 ∧
    (runSim defaultConfig .pass).proactive_data_mb = 100 := by
  have h60 : loop defaultConfig .pass 0 60 (initState defaultConfig) = passRunState60 :=
    passRunEval60
  have hrun : runSim defaultConfig .pass =
      finalizeMetrics (loop defaultConfig .pass 0 100 (initState defaultConfig)) := rfl
  refine ⟨?_, ?_, ?_, ?_, ?_⟩
  · intro cfg s j d h
    obtain ⟨u, nt, nb, ql, mig, ms⟩ := s
    simp only [SimState.migration_in_progress] at h
    subst h
    simp only [execute_action]
  · rw [h60]
    rfl
  · rw [h60]
    norm_num [applySwitchEvent, applyContextEvent, SimState.get_udt, agentDecide,
      predict_intent, passRunState60, defaultConfig, switchForRun_phone,
      str_phone_ne_laptop, str_stay_ne_switch]
  · rw [hrun, passRunEval]
    norm_num [finalizeMetrics, passRunState100]
  · rw [hrun, passRunEval]
    norm_num [finalizeMetrics, passRunState100]

/-- Witness for C10's ignored-decision conjunct at a concrete live-job state. -/
theorem live_job_ignores_decision_witness :
    execute_action defaultConfig
      { user := User.init, network_type := "5G", network_bandwidth := 25,
        quality_level := "High",
        migration_in_progress := some
          { type := "PREPARE", device := "Phone", remaining_mb := 75/8, steps_taken := 30,
            bandwidth := 25, network_type := "5G" },
        metrics := { handover_latency_steps := 0, total_power_consumed := 0,
                     proactive_data_mb := 0, total_migration_time := 30 } }
      .executeMigration =
    execute_action defaultConfig
      { user := User.init, network_type := "5G", network_bandwidth := 25,
        quality_level := "High",
        migration_in_progress := some
          { type := "PREPARE", device := "Phone", remaining_mb := 75/8, steps_taken := 30,
            bandwidth := 25, network_type := "5G" },
        metrics := { handover_latency_steps := 0, total_power_consumed := 0,
                     proactive_data_mb := 0, total_migration_time := 30 } }
      .noOp :=
  live_job_ignores_decision.1 defaultConfig _
    { type := "PREPARE", device := "Phone", remaining_mb := 75/8, steps_taken := 30,
      bandwidth := 25, network_type := "5G" }
    .executeMigration rfl

end Pass

namespace Pass

theorem stepStart (b : ℚ) (t : ℕ) (s : SimState) (hs : StartP s)
    (ht30 : t ≠ 30) (ht60 : t ≠ 60) :
    StartP (stepBody (cfgWith5G b) .pass t s) := by
  obtain ⟨⟨⟨ln, la, lp⟩, ⟨pn, pa, pp⟩, ctx, adn⟩, nt, nb, ql, mig, ⟨mh, mp, mpr, mt⟩⟩ := s
  obtain ⟨h1, h2, h3, h4, h5, h6, h7, h8⟩ := hs
  simp only [SimState.user, User.laptop, User.phone, User.context, User.active_device_name,
    SimState.quality_level, SimState.migration_in_progress, SimState.metrics,
    Metrics.handover_latency_steps, Metrics.proactive_data_mb,
    Device.mk.injEq] at h1 h2 h3 h4 h5 h6 h7 h8
  obtain ⟨rfl, rfl, rfl⟩ := h1
  obtain ⟨rfl, rfl, rfl⟩ := h2
  subst h3 h4 h5 h6 h7 h8
  simp [stepBody, applyContextEvent, applySwitchEvent, SimState.get_udt, agentDecide,
    predict_intent, execute_action, accruePower, cfgWith5G, StartP, ht30, ht60,
    str_office_ne_walking, str_stay_ne_switch]

theorem loopStart (b : ℚ) :
    ∀ (n t : ℕ) (s : SimState), StartP s → t + n ≤ 30 →
      StartP (loop (cfgWith5G b) .pass t n s)
  | 0, _, _, hs, _ => hs
  | n + 1, t, s, hs, h => by
    rw [loop]
    exact loopStart b n (t + 1) _ (stepStart b t s hs (by omega) (by omega)) (by omega)

theorem stepContextChange (b : ℚ) (s : SimState) (hs : StartP s) :
    PrepP b 0 (stepBody (cfgWith5G b) .pass 30 s) := by
  obtain ⟨⟨⟨ln, la, lp⟩, ⟨pn, pa, pp⟩, ctx, adn⟩, nt, nb, ql, mig, ⟨mh, mp, mpr, mt⟩⟩ := s
  obtain ⟨h1, h2, h3, h4, h5, h6, h7, h8⟩ := hs
  simp only [SimState.user, User.laptop, User.phone, User.context, User.active_device_name,
    SimState.quality_level, SimState.migration_in_progress, SimState.metrics,
    Metrics.handover_latency_steps, Metrics.proactive_data_mb,
    Device.mk.injEq] at h1 h2 h3 h4 h5 h6 h7 h8
  obtain ⟨rfl, rfl, rfl⟩ := h1
  obtain ⟨rfl, rfl, rfl⟩ := h2
  subst h3 h4 h5 h6 h7 h8
  simp [stepBody, applyContextEvent, applySwitchEvent, SimState.get_udt, agentDecide,
    predict_intent, execute_action, accruePower, cfgWith5G, PrepP,
    str_stay_ne_switch]

theorem stepPrep_continue (b : ℚ) (k t : ℕ) (s : SimState) (hs : PrepP b k s)
    (ht30 : t ≠ 30) (ht60 : t ≠ 60)
    (hr : 0 < 100 - ((k : ℚ) + 1) * (b / 8)) :
    PrepP b (k + 1) (stepBody (cfgWith5G b) .pass t s) := by
  obtain ⟨⟨⟨ln, la, lp⟩, ⟨pn, pa, pp⟩, ctx, adn⟩, nt, nb, ql, mig, ⟨mh, mp, mpr, mt⟩⟩ := s
  obtain ⟨h1, h2, h3, h4, h5, h6, h7, h8, h9⟩ := hs
  simp only [SimState.user, User.laptop, User.phone, User.context, User.active_device_name,
    SimState.quality_level, SimState.migration_in_progress, SimState.metrics,
    Metrics.handover_latency_steps, Metrics.proactive_data_mb,
    Device.mk.injEq] at h1 h2 h3 h4 h5 h6 h7 h8
  obtain ⟨rfl, rfl, rfl⟩ := h1
  obtain ⟨rfl, rfl, rfl⟩ := h2
  subst h3 h4 h5 h6 h7 h8
  have hr' : ¬(100 - (k : ℚ) * (b / 8) - b / 8 ≤ 0) := by linarith
  simp [stepBody, applyContextEvent, applySwitchEvent, SimState.get_udt, agentDecide,
    predict_intent, execute_action, accruePower, cfgWith5G, PrepP, ht30, ht60, hr',
    str_stay_ne_switch]
  constructor
  · ring
  · linarith

theorem stepPrep_complete (b : ℚ) (k t : ℕ) (s : SimState) (hs : PrepP b k s)
    (ht30 : t ≠ 30) (ht60 : t ≠ 60)
    (hr : 100 - ((k : ℚ) + 1) * (b / 8) ≤ 0) :
    ReadyP (stepBody (cfgWith5G b) .pass t s) := by
  obtain ⟨⟨⟨ln, la, lp⟩, ⟨pn, pa, pp⟩, ctx, adn⟩, nt, nb, ql, mig, ⟨mh, mp, mpr, mt⟩⟩ := s
  obtain ⟨h1, h2, h3, h4, h5, h6, h7, h8, h9⟩ := hs
  simp only [SimState.user, User.laptop, User.phone, User.context, User.active_device_name,
    SimState.quality_level, SimState.migration_in_progress, SimState.metrics,
    Metrics.handover_latency_steps, Metrics.proactive_data_mb,
    Device.mk.injEq] at h1 h2 h3 h4 h5 h6 h7 h8
  obtain ⟨rfl, rfl, rfl⟩ := h1
  obtain ⟨rfl, rfl, rfl⟩ := h2
  subst h3 h4 h5 h6 h7 h8
  have hr' : 100 - (k : ℚ) * (b / 8) - b / 8 ≤ 0 := by linarith
  simp [stepBody, applyContextEvent, applySwitchEvent, SimState.get_udt, agentDecide,
    predict_intent, execute_action, accruePower, cfgWith5G, ReadyP, ht30, ht60, hr',
    setDevice_phone, str_stay_ne_switch]

theorem loopReady (b : ℚ) :
    ∀ (n t : ℕ) (s : SimState), ReadyP s → 30 < t → t + n ≤ 60 →
      ReadyP (loop (cfgWith5G b) .pass t n s)
  | 0, _, _, hs, _, _ => hs
  | n + 1, t, s, hs, h30, h60 => by
    rw [loop]
    refine loopReady b n (t + 1) _ ?_ (by omega) (by omega)
    obtain ⟨⟨⟨ln, la, lp⟩, ⟨pn, pa, pp⟩, ctx, adn⟩, nt, nb, ql, mig, ⟨mh, mp, mpr, mt⟩⟩ := s
    obtain ⟨h1, h2, h3, h4, h5, h6, h7, h8⟩ := hs
    simp only [SimState.user, User.laptop, User.phone, User.context, User.active_device_name,
      SimState.quality_level, SimState.migration_in_progress, SimState.metrics,
      Metrics.handover_latency_steps, Metrics.proactive_data_mb,
      Device.mk.injEq] at h1 h2 h3 h4 h5 h6 h7 h8
    obtain ⟨rfl, rfl, rfl⟩ := h1
    obtain ⟨rfl, rfl, rfl⟩ := h2
    subst h3 h4 h5 h6 h7 h8
    simp [stepBody, applyContextEvent, applySwitchEvent, SimState.get_udt, agentDecide,
      predict_intent, execute_action, accruePower, cfgWith5G, ReadyP,
      show t ≠ 30 by omega, show t ≠ 60 by omega, str_stay_ne_switch]

theorem loopPrepToReady (b : ℚ) :
    ∀ (n k : ℕ) (s : SimState), PrepP b k s →
      (100 : ℚ) ≤ ((k : ℚ) + (n : ℚ)) * (b / 8) → 31 + k + n ≤ 60 →
      ReadyP (loop (cfgWith5G b) .pass (31 + k) n s)
  | 0, k, s, hs, hb, _ => by
    exfalso
    obtain ⟨-, -, -, -, -, -, -, -, h9⟩ := hs
    push_cast at hb
    nlinarith [h9, hb]
  | n + 1, k, s, hs, hb, hend => by
    rw [loop]
    by_cases hc : 100 - ((k : ℚ) + 1) * (b / 8) ≤ 0
    · have h1 : ReadyP (stepBody (cfgWith5G b) .pass (31 + k) s) :=
        stepPrep_complete b k (31 + k) s hs (by omega) (by omega) hc
      exact loopReady b n (31 + k + 1) _ h1 (by omega) (by omega)
    · have hlt : 0 < 100 - ((k : ℚ) + 1) * (b / 8) := by linarith
      have h1 : PrepP b (k + 1) (stepBody (cfgWith5G b) .pass (31 + k) s) :=
        stepPrep_continue b k (31 + k) s hs (by omega) (by omega) hlt
      have h2 := loopPrepToReady b n (k + 1) _ h1 (by push_cast; push_cast at hb; linarith)
        (by omega)
      have harith : 31 + (k + 1) = 31 + k + 1 := by omega
      rw [harith] at h2
      exact h2

theorem stepSwitch (b : ℚ) (s : SimState) (hs : ReadyP s) :
    DoneP (stepBody (cfgWith5G b) .pass 60 s) := by
  obtain ⟨⟨⟨ln, la, lp⟩, ⟨pn, pa, pp⟩, ctx, adn⟩, nt, nb, ql, mig, ⟨mh, mp, mpr, mt⟩⟩ := s
  obtain ⟨h1, h2, h3, h4, h5, h6, h7, h8⟩ := hs
  simp only [SimState.user, User.laptop, User.phone, User.context, User.active_device_name,
    SimState.quality_level, SimState.migration_in_progress, SimState.metrics,
    Metrics.handover_latency_steps, Metrics.proactive_data_mb,
    Device.mk.injEq] at h1 h2 h3 h4 h5 h6 h7 h8
  obtain ⟨rfl, rfl, rfl⟩ := h1
  obtain ⟨rfl, rfl, rfl⟩ := h2
  subst h3 h4 h5 h6 h7 h8
  simp [stepBody, applyContextEvent, applySwitchEvent, SimState.get_udt, agentDecide,
    predict_intent, execute_action, accruePower, cfgWith5G, DoneP,
    User.switchForRun, User.switch_active_device, User.getDevice, User.setDevice,
    str_phone_ne_laptop, str_stay_ne_switch]

theorem stepDone (b : ℚ) (t : ℕ) (s : SimState) (hs : DoneP s)
    (ht30 : t ≠ 30) (ht60 : t ≠ 60) :
    DoneP (stepBody (cfgWith5G b) .pass t s) := by
  obtain ⟨⟨lap, pho, ctx, adn⟩, nt, nb, ql, mig, ⟨mh, mp, mpr, mt⟩⟩ := s
  obtain ⟨h1, h2, h3, h4, h5⟩ := hs
  simp only [SimState.user, User.context, User.active_device_name,
    SimState.migration_in_progress, SimState.metrics,
    Metrics.handover_latency_steps, Metrics.proactive_data_mb] at h1 h2 h3 h4 h5
  subst h1 h2 h3 h4 h5
  simp [stepBody, applyContextEvent, applySwitchEvent, SimState.get_udt, agentDecide,
    predict_intent, execute_action, accruePower, cfgWith5G, DoneP, ht30, ht60,
    str_phone_ne_laptop, str_stay_ne_switch]

theorem loopDone (b : ℚ) :
    ∀ (n t : ℕ) (s : SimState), DoneP s → 60 < t →
      DoneP (loop (cfgWith5G b) .pass t n s)
  | 0, _, _, hs, _ => hs
  | n + 1, t, s, hs, h60 => by
    rw [loop]
    exact loopDone b n (t + 1) _ (stepDone b t s hs (by omega) (by omega)) (by omega)

set_option maxHeartbeats 1000000 in
/-- C1: in the scripted scenario run by the PASS agent, whenever the bandwidth
after the context change is large enough that the PREPARE job started at the
context-change step fully completes in the steps strictly between the
context-change step and the switch step (29 transfers of `b / 8` MB reach the
100 MB session size), the run takes the fast path at the switch step: the
final `handover_latency_steps` is 1 and `proactive_data_mb` is the full
session size. -/
theorem pass_agent_fast_path (b : ℚ) (hb : (100 : ℚ) ≤ 29 * (b / 8)) :
    (runSim (cfgWith5G b) .pass).handover_latency_steps = 1 ∧
    (runSim (cfgWith5G b) .pass).proactive_data_mb = 100 := by
  have loop_one : ∀ (t : ℕ) (X : SimState),
      loop (cfgWith5G b) .pass t 1 X = stepBody (cfgWith5G b) .pass t X := fun t X => rfl
  have hsplit : loop (cfgWith5G b) .pass 0 100 (initState (cfgWith5G b)) =
      loop (cfgWith5G b) .pass 61 39 (stepBody (cfgWith5G b) .pass 60
        (loop (cfgWith5G b) .pass 31 29 (stepBody (cfgWith5G b) .pass 30
          (loop (cfgWith5G b) .pass 0 30 (initState (cfgWith5G b)))))) := by
    rw [show (100 : ℕ) = 30 + (1 + (29 + (1 + 39))) from by norm_num]
    rw [loop_add, loop_add, loop_add, loop_add, loop_one, loop_one]
  have h30 : StartP (loop (cfgWith5G b) .pass 0 30 (initState (cfgWith5G b))) :=
    loopStart b 30 0 _ (by simp [StartP, initState, User.init]) (by omega)
  have h31 : PrepP b 0 (stepBody (cfgWith5G b) .pass 30
      (loop (cfgWith5G b) .pass 0 30 (initState (cfgWith5G b)))) :=
    stepContextChange b _ h30
  have h60 : ReadyP (loop (cfgWith5G b) .pass 31 29 (stepBody (cfgWith5G b) .pass 30
      (loop (cfgWith5G b) .pass 0 30 (initState (cfgWith5G b))))) := by
    have h := loopPrepToReady b 29 0 _ h31 (by push_cast; linarith) (by omega)
    norm_num at h
    exact h
  have h61 : DoneP (stepBody (cfgWith5G b) .pass 60 (loop (cfgWith5G b) .pass 31 29
      (stepBody (cfgWith5G b) .pass 30
        (loop (cfgWith5G b) .pass 0 30 (initState (cfgWith5G b)))))) :=
    stepSwitch b _ h60
  have hEnd := loopDone b 39 61 _ h61 (by omega)
  obtain ⟨-, -, hmig, hh, hp⟩ := hEnd
  unfold runSim
  rw [show (cfgWith5G b).simulation_steps = 100 from rfl, hsplit]
  simp only [finalizeMetrics, hmig]
  exact ⟨hh, hp⟩

/-- Witness for C1 at the bandwidth 50 MB/s (for which 29 transfers move
181.25 MB ≥ 100 MB): the run's final latency is 1 and its proactive data is
the full session size. -/
theorem pass_agent_fast_path_witness :
    (100 : ℚ) ≤ 29 * ((50 : ℚ) / 8) ∧
    (runSim (cfgWith5G 50) .pass).handover_latency_steps = 1 ∧
    (runSim (cfgWith5G 50) .pass).proactive_data_mb = 100 :=
  ⟨by norm_num, (pass_agent_fast_path 50 (by norm_num)).1,
    (pass_agent_fast_path 50 (by norm_num)).2⟩

end Pass
